import Mathlib

/-!
# metarx.c : timestamped synchronous RX acquisition

A shallow embedding of `src/c-compare/metarx.c`: `configure_channel`,
`sync_rx_meta_now_example` and `main`.

The bladeRF device is an explicit state of an arbitrary type `σ`, threaded
through every library call; the calls the program performs are recorded, in
order, in a trace.  Text written to stdout/stderr, the two second settle delay
and the contents of the sample buffer do not influence the control flow and are
not part of the model.  Of the memory management of `main` the model keeps the
outcome of the allocation and whether the pointer given to `free` holds a
value: where it does not, the behaviour of the C program is undefined and
`main` has no return value in the model.  A value returned by `main` is the C
`int`, before the operating system truncates it to an exit status.  Strings
are lists of bytes.
-/

namespace Metarx

/-! ## The library interface (`libbladeRF.h`) -/

/-- Constants and macros of the external header `libbladeRF.h` used by
`metarx.c`, and `devinfo_serial`, the bytes of the array `dev_info.serial` as
the library function `bladerf_init_devinfo` leaves them (its length is
`sizeof(dev_info.serial)`).  The library is not part of the repository; these
values are taken as parameters, so every theorem holds whatever they are. -/
structure LibBladeRF where
  BLADERF_CHANNEL_RX : Nat → Int
  BLADERF_RX : Int
  BLADERF_RX_X1 : Int
  BLADERF_FORMAT_SC16_Q11_META : Int
  BLADERF_META_FLAG_RX_NOW : Nat
  BLADERF_META_STATUS_OVERRUN : Nat
  BLADERF_ERR_MEM : Int
  devinfo_serial : List Nat

/-- The `struct bladerf_metadata` that `bladerf_sync_rx` reads and writes. -/
structure bladerf_metadata where
  timestamp : Nat
  flags : Nat
  status : Nat
  actual_count : Nat
  deriving DecidableEq, Repr

/-- The library calls made by the program that return only a status (or
nothing, for `bladerf_close`), with the arguments the program passes. -/
inductive DevCall where
  | open_with_devinfo (serial : List Nat)
  | set_frequency (ch : Int) (frequency : Nat)
  | set_sample_rate (ch : Int) (rate : Nat)
  | set_bandwidth (ch : Int) (bandwidth : Nat)
  | set_gain (ch : Int) (gain : Int)
  | sync_config (layout format : Int) (num_buffers buffer_size num_transfers timeout : Nat)
  | enable_module (ch : Int) (enable : Bool)
  | sync_rx (samples_len timeout_ms : Nat)
  | close
  deriving DecidableEq, Repr

/-- A device: how it answers each status-only call, and how it answers
`bladerf_sync_rx`, whose answer is a status together with the metadata it wrote
back.  Both may depend on, and change, the device state. -/
structure Device (σ : Type) where
  call : σ → DevCall → Int × σ
  sync_rx : σ → bladerf_metadata → Nat → Nat → Int × bladerf_metadata × σ

/-- The device state together with the calls performed so far, oldest first. -/
structure World (σ : Type) where
  dev : σ
  trace : List DevCall

/-- Perform one status-only library call and record it. -/
def invoke {σ : Type} (d : Device σ) (w : World σ) (c : DevCall) : Int × World σ :=
  let r := d.call w.dev c
  (r.1, ⟨r.2, w.trace ++ [c]⟩)

/-! ## `configure_channel` -/

/-- The `struct channel_config` of the source. -/
structure channel_config where
  channel : Int
  frequency : Nat
  bandwidth : Nat
  samplerate : Nat
  gain : Int

/-- The function `configure_channel` of the source (lines 28-60): the four
setters in sequence, returning at the first non-zero status. -/
def configure_channel {σ : Type} (d : Device σ) (w : World σ) (c : channel_config) :
    Int × World σ :=
  let r1 := invoke d w (DevCall.set_frequency c.channel c.frequency)
  if r1.1 ≠ 0 then (r1.1, r1.2)
  else
    let r2 := invoke d r1.2 (DevCall.set_sample_rate c.channel c.samplerate)
    if r2.1 ≠ 0 then (r2.1, r2.2)
    else
      let r3 := invoke d r2.2 (DevCall.set_bandwidth c.channel c.bandwidth)
      if r3.1 ≠ 0 then (r3.1, r3.2)
      else
        let r4 := invoke d r3.2 (DevCall.set_gain c.channel c.gain)
        if r4.1 ≠ 0 then (r4.1, r4.2)
        else (r4.1, r4.2)

/-! ## `sync_rx_meta_now_example` -/

/-- The local variables of `sync_rx_meta_now_example` that live across loop
iterations, with the device and the trace. -/
structure LoopState (σ : Type) where
  i : Nat
  status : Int
  nfailed : Nat
  meta : bladerf_metadata
  w : World σ

/-- How the `for` loop was left: its condition `i < rx_count && status == 0`
became false, the `break` under `nfailed > 5` was taken, or the model's
iteration budget ran out (which `rx_for_total` excludes for the budget the
function uses). -/
inductive LoopExit where
  | cond
  | brk
  | fuel
  deriving DecidableEq, Repr

/-- One execution of the loop body (lines 177-192).  The boolean tells whether
the body ended in `break`. -/
def rx_body {σ : Type} (d : Device σ) (K : LibBladeRF) (samples_len timeout_ms : Nat)
    (s : LoopState σ) : Bool × LoopState σ :=
  let r := d.sync_rx s.w.dev s.meta samples_len timeout_ms
  let s1 : LoopState σ :=
    { s with status := r.1, meta := r.2.1,
             w := ⟨r.2.2, s.w.trace ++ [DevCall.sync_rx samples_len timeout_ms]⟩ }
  if s1.status ≠ 0 then (false, s1)
  else if s1.meta.status &&& K.BLADERF_META_STATUS_OVERRUN ≠ 0 then
    let s2 : LoopState σ := { s1 with nfailed := s1.nfailed + 1 }
    if s2.nfailed > 5 then (true, s2) else (false, s2)
  else (false, s1)

/-- The `for` loop of lines 176-193, run for at most `fuel` iterations from the
loop state `s`.  `i` is an `unsigned int` below `rx_count`, so `i++` never
wraps. -/
def rx_for {σ : Type} (d : Device σ) (K : LibBladeRF) (samples_len rx_count timeout_ms : Nat) :
    Nat → LoopState σ → LoopExit × LoopState σ
  | 0, s => if s.i < rx_count ∧ s.status = 0 then (LoopExit.fuel, s) else (LoopExit.cond, s)
  | fuel + 1, s =>
    if s.i < rx_count ∧ s.status = 0 then
      let b := rx_body d K samples_len timeout_ms s
      if b.1 then (LoopExit.brk, b.2)
      else rx_for d K samples_len rx_count timeout_ms fuel { b.2 with i := b.2.i + 1 }
    else (LoopExit.cond, s)

/-- The metadata before the first request: zeroed, then `flags` set to
`BLADERF_META_FLAG_RX_NOW` (lines 166-167). -/
def meta_init (K : LibBladeRF) : bladerf_metadata :=
  { timestamp := 0, flags := K.BLADERF_META_FLAG_RX_NOW, status := 0, actual_count := 0 }

/-- The loop state at loop entry: `status = 0`, `i = 0`, `nfailed = 0`. -/
def rx_init {σ : Type} (K : LibBladeRF) (w : World σ) : LoopState σ :=
  { i := 0, status := 0, nfailed := 0, meta := meta_init K, w := w }

/-- The function `sync_rx_meta_now_example` of the source (lines 155-195).  The
C function returns `status`, the component `.2.status` of the result; the rest
of the final loop state and the way the loop was left are kept for reasoning.
At most `rx_count` iterations can happen, which is the budget given. -/
def sync_rx_meta_now_example {σ : Type} (d : Device σ) (K : LibBladeRF) (w : World σ)
    (samples_len rx_count timeout_ms : Nat) : LoopExit × LoopState σ :=
  rx_for d K samples_len rx_count timeout_ms rx_count (rx_init K w)

/-! ## `main` -/

/-- The C function `strncpy(dest, src, n)` on arrays of bytes, for `n` at most
the size of `dest`: the first `n` bytes of `dest` become the bytes of the
string `src` (those before its first zero byte), at most `n` of them, padded
with zero bytes up to `n`; the later bytes of `dest` are kept. -/
def strncpy (dest src : List Nat) (n : Nat) : List Nat :=
  let s := (src.takeWhile (fun b => b != 0)).take n
  s ++ List.replicate (n - s.length) 0 ++ dest.drop n

/-- The bytes of `dev_info.serial` passed to `bladerf_open_with_devinfo`
(lines 80-86): those left by `bladerf_init_devinfo`, over which, when
`argc >= 2`, `argv[1]` is copied by `strncpy` with the bound
`sizeof(dev_info.serial) - 1`.  `argv` lists the arguments as byte strings, so
`argc` is its length. -/
def requested_serial (K : LibBladeRF) (argv : List (List Nat)) : List Nat :=
  if argv.length ≥ 2 then
    strncpy K.devinfo_serial (argv.getD 1 []) (K.devinfo_serial.length - 1)
  else K.devinfo_serial

/-- What the pointer `buffer` of `main` holds when `free(buffer)` is reached:
nothing determinate, when a `goto out` has jumped over its initialisation at
line 138; a null pointer; or the block that `malloc` returned. -/
inductive Pointer where
  | indeterminate
  | null
  | allocated
  deriving DecidableEq, Repr

/-- Whether `free(p)` has defined behaviour: it has for a null pointer and for
an allocated block, not for an indeterminate value. -/
def free_defined : Pointer → Bool
  | Pointer.indeterminate => false
  | Pointer.null => true
  | Pointer.allocated => true

/-- The code of `main` from the label `out` (lines 149-152):
`bladerf_close(dev); free(buffer); return status;`.  The value returned is
`none` when the behaviour of `free(buffer)` is undefined. -/
def main_out {σ : Type} (d : Device σ) (w : World σ) (buffer : Pointer) (status : Int) :
    Option Int × World σ :=
  let c := invoke d w DevCall.close
  if free_defined buffer then (some status, c.2) else (none, c.2)

/-- The function `main` of the source (lines 70-153).  `argv` is the argument
vector, `malloc_ok` tells whether the allocation of line 138 succeeds.  The
result is the value returned by `main`, or `none` where the behaviour of the
program is undefined, and the final device state and trace.  The three
`goto out` of the setup (lines 106, 127, 134) come before the declaration and
initialisation of `buffer`, which is indeterminate when they reach
`free(buffer)`. -/
def main {σ : Type} (d : Device σ) (K : LibBladeRF) (w : World σ) (argv : List (List Nat))
    (malloc_ok : Bool) : Option Int × World σ :=
  let o := invoke d w (DevCall.open_with_devinfo (requested_serial K argv))
  if o.1 ≠ 0 then (some 1, o.2)
  else
    let config : channel_config :=
      { channel := K.BLADERF_CHANNEL_RX 0, frequency := 910000000, bandwidth := 50000000,
        samplerate := 61440000, gain := 39 }
    let c := configure_channel d o.2 config
    if c.1 ≠ 0 then main_out d c.2 Pointer.indeterminate c.1
    else
      let num_buffers := 64
      let buffer_size := 16384
      let num_transfers := 16
      let timeout_ms := 0
      let sc := invoke d c.2 (DevCall.sync_config K.BLADERF_RX_X1 K.BLADERF_FORMAT_SC16_Q11_META
        num_buffers buffer_size num_transfers timeout_ms)
      if sc.1 ≠ 0 then main_out d sc.2 Pointer.indeterminate sc.1
      else
        let en := invoke d sc.2 (DevCall.enable_module K.BLADERF_RX true)
        if en.1 ≠ 0 then main_out d en.2 Pointer.indeterminate en.1
        else
          let nsamples := 8192
          if ¬ malloc_ok then (some K.BLADERF_ERR_MEM, en.2)
          else
            let rx_count := 1000000000
            let rx := sync_rx_meta_now_example d K en.2 nsamples rx_count timeout_ms
            main_out d rx.2.w Pointer.allocated en.1

/-! ## The sequence of device results seen by the acquisition loop -/

/-- The device's answer (status and metadata written back) to the `k`-th of a
run of consecutive receive requests, counted from 0, that starts in device
state `st` with metadata `m`; each request passes the metadata left by the
previous one, as the loop does. -/
def rx_answer {σ : Type} (d : Device σ) (samples_len timeout_ms : Nat) :
    Nat → σ → bladerf_metadata → Int × bladerf_metadata
  | 0, st, m => let r := d.sync_rx st m samples_len timeout_ms; (r.1, r.2.1)
  | k + 1, st, m =>
    let r := d.sync_rx st m samples_len timeout_ms
    rx_answer d samples_len timeout_ms k r.2.2 r.2.1

/-- An overrun result: zero status with the overrun flag set in the metadata
status. -/
def is_overrun (K : LibBladeRF) (a : Int × bladerf_metadata) : Bool :=
  a.1 == 0 && (a.2.status &&& K.BLADERF_META_STATUS_OVERRUN != 0)

/-- The number of overrun results among the first `n` answers. -/
def overruns {σ : Type} (d : Device σ) (K : LibBladeRF) (samples_len timeout_ms : Nat)
    (n : Nat) (st : σ) (m : bladerf_metadata) : Nat :=
  (List.range n).countP (fun k => is_overrun K (rx_answer d samples_len timeout_ms k st m))

/-- The number of calls recorded between the world `w` and the later state
`s`. -/
def requests_issued {σ : Type} (w : World σ) (s : LoopState σ) : Nat :=
  s.w.trace.length - w.trace.length

/-- Whether a recorded call disables a module. -/
def is_disable : DevCall → Bool
  | DevCall.enable_module _ false => true
  | _ => false

/-- Whether a recorded call is a receive request. -/
def is_sync_rx : DevCall → Bool
  | DevCall.sync_rx _ _ => true
  | _ => false

/-- The four setter calls of `configure_channel`, in source order. -/
def config_calls (c : channel_config) : List DevCall :=
  [DevCall.set_frequency c.channel c.frequency, DevCall.set_sample_rate c.channel c.samplerate,
   DevCall.set_bandwidth c.channel c.bandwidth, DevCall.set_gain c.channel c.gain]

/-- The channel configuration that `main` builds (lines 97-101). -/
def main_config (K : LibBladeRF) : channel_config :=
  { channel := K.BLADERF_CHANNEL_RX 0, frequency := 910000000, bandwidth := 50000000,
    samplerate := 61440000, gain := 39 }

/-- The `bladerf_sync_config` call of `main` (lines 116-123). -/
def main_sync_config (K : LibBladeRF) : DevCall :=
  DevCall.sync_config K.BLADERF_RX_X1 K.BLADERF_FORMAT_SC16_Q11_META 64 16384 16 0

/-- The result of the `bladerf_open_with_devinfo` call of `main` (line 88). -/
def main_open {σ : Type} (d : Device σ) (K : LibBladeRF) (w : World σ) (argv : List (List Nat)) :
    Int × World σ :=
  invoke d w (DevCall.open_with_devinfo (requested_serial K argv))

/-- The result of the `configure_channel` call of `main` (line 103), made after
the device was opened. -/
def main_configured {σ : Type} (d : Device σ) (K : LibBladeRF) (w : World σ)
    (argv : List (List Nat)) : Int × World σ :=
  configure_channel d (main_open d K w argv).2 (main_config K)

/-- The result of the `bladerf_sync_config` call of `main` (line 121), made
after the channel was configured. -/
def main_synced {σ : Type} (d : Device σ) (K : LibBladeRF) (w : World σ)
    (argv : List (List Nat)) : Int × World σ :=
  invoke d (main_configured d K w argv).2 (main_sync_config K)

/-- The result of the `bladerf_enable_module` call of `main` (line 131), made
after the sync interface was configured. -/
def main_enabled {σ : Type} (d : Device σ) (K : LibBladeRF) (w : World σ)
    (argv : List (List Nat)) : Int × World σ :=
  invoke d (main_synced d K w argv).2 (DevCall.enable_module K.BLADERF_RX true)

/-- The result of the `sync_rx_meta_now_example` call of `main` (line 141), made
after the front end was enabled and the buffer allocated. -/
def main_acquired {σ : Type} (d : Device σ) (K : LibBladeRF) (w : World σ)
    (argv : List (List Nat)) : LoopExit × LoopState σ :=
  sync_rx_meta_now_example d K (main_enabled d K w argv).2 8192 1000000000 0

/-! ## Concrete devices for the examples -/

/-- The values the header constants have in libbladeRF 2.x, where the serial
array has 33 bytes and `bladerf_init_devinfo` leaves the string "ANY" in it.
Only the concrete examples use them. -/
def libbladeRF_h : LibBladeRF :=
  { BLADERF_CHANNEL_RX := fun ch => ((ch <<< 1 ||| 0 : Nat) : Int)
    BLADERF_RX := 0
    BLADERF_RX_X1 := 0
    BLADERF_FORMAT_SC16_Q11_META := 1
    BLADERF_META_FLAG_RX_NOW := 2 ^ 31
    BLADERF_META_STATUS_OVERRUN := 1
    BLADERF_ERR_MEM := -4
    devinfo_serial := [65, 78, 89] ++ List.replicate 30 0 }

/-- A device that follows a script: `calls` gives the status of each
status-only call, `rx k` the answer to the `k`-th receive request.  Its state
is the number of receive requests answered so far. -/
def scripted (calls : DevCall → Int) (rx : Nat → Int × bladerf_metadata) : Device Nat :=
  { call := fun st c => (calls c, st)
    sync_rx := fun st _ _ _ => ((rx st).1, (rx st).2, st + 1) }

/-- Every status-only call succeeds. -/
def calls_ok : DevCall → Int := fun _ => 0

/-- Opening the device fails with `BLADERF_ERR_NODEV` (-7). -/
def calls_open_fails : DevCall → Int
  | DevCall.open_with_devinfo _ => -7
  | _ => 0

/-- The sample rate is rejected with `BLADERF_ERR_RANGE` (-2). -/
def calls_rate_fails : DevCall → Int
  | DevCall.set_sample_rate _ _ => -2
  | _ => 0

/-- The sync configuration fails with `BLADERF_ERR_INVAL` (-3). -/
def calls_sync_config_fails : DevCall → Int
  | DevCall.sync_config _ _ _ _ _ _ => -3
  | _ => 0

/-- A full block of 8192 samples, no overrun. -/
def answer_ok (k : Nat) : Int × bladerf_metadata :=
  (0, { timestamp := 8192 * k, flags := 2 ^ 31, status := 0, actual_count := 8192 })

/-- An overrun: zero status, overrun flag set, 500 valid samples. -/
def answer_overrun (k : Nat) : Int × bladerf_metadata :=
  (0, { timestamp := 8192 * k, flags := 2 ^ 31, status := 1, actual_count := 500 })

/-- A transport error, `BLADERF_ERR_IO` (-5), overrun flag clear. -/
def answer_error (k : Nat) : Int × bladerf_metadata :=
  (-5, { timestamp := 8192 * k, flags := 2 ^ 31, status := 0, actual_count := 0 })

/-- A non-zero status, `BLADERF_ERR_TIMEOUT` (-6), together with the overrun
flag. -/
def answer_error_overrun (k : Nat) : Int × bladerf_metadata :=
  (-6, { timestamp := 8192 * k, flags := 2 ^ 31, status := 1, actual_count := 0 })

/-- Scenario B: the third request (index 2) reports an overrun, the others
succeed. -/
def rx_scenario_b (k : Nat) : Int × bladerf_metadata :=
  if k = 2 then answer_overrun k else answer_ok k

/-- Overruns at the requests of index 0, 2, 4, 6, 8, then at every request
from index 10 on; the requests in between succeed. -/
def rx_sparse_overruns (k : Nat) : Int × bladerf_metadata :=
  if k % 2 = 0 ∨ 10 ≤ k then answer_overrun k else answer_ok k

/-- Two successes, then a transport error with the overrun flag set. -/
def rx_error_at_2 (k : Nat) : Int × bladerf_metadata :=
  if k < 2 then answer_ok k else answer_error_overrun k

/-- The initial state of the scripted devices: no call yet, no request
answered. -/
def world0 : World Nat := ⟨0, []⟩

/-- Every call and every receive request succeeds. -/
def dev_ok : Device Nat := scripted calls_ok answer_ok

/-- Every call succeeds, every receive request reports an overrun. -/
def dev_overruns : Device Nat := scripted calls_ok answer_overrun

/-- Every call succeeds, every receive request fails. -/
def dev_rx_fails : Device Nat := scripted calls_ok answer_error

/-- Every call succeeds, the receive requests follow scenario B. -/
def dev_scenario_b : Device Nat := scripted calls_ok rx_scenario_b

/-- Every call succeeds, the receive requests follow `rx_sparse_overruns`. -/
def dev_sparse_overruns : Device Nat := scripted calls_ok rx_sparse_overruns

/-- Every call succeeds, the receive requests follow `rx_error_at_2`. -/
def dev_error_at_2 : Device Nat := scripted calls_ok rx_error_at_2

/-- The device cannot be opened. -/
def dev_open_fails : Device Nat := scripted calls_open_fails answer_ok

/-- The sample rate is rejected. -/
def dev_rate_fails : Device Nat := scripted calls_rate_fails answer_ok

/-- The sync configuration fails. -/
def dev_sync_config_fails : Device Nat := scripted calls_sync_config_fails answer_ok

/-- What a run of the loop from the loop state `s` with budget `fuel`, ending
in `out` after `j` requests, satisfies. -/
structure RunFacts {σ : Type} (d : Device σ) (K : LibBladeRF) (len n t : Nat)
    (s : LoopState σ) (fuel : Nat) (out : LoopExit × LoopState σ) (j : Nat) : Prop where
  trace : out.2.w.trace = s.w.trace ++ List.replicate j (DevCall.sync_rx len t)
  le_fuel : j ≤ fuel
  le_target : j ≤ n - s.i
  nfailed : out.2.nfailed = s.nfailed + overruns d K len t j s.w.dev s.meta
  earlier : ∀ k, k + 1 < j → (rx_answer d len t k s.w.dev s.meta).1 = 0 ∧
    s.nfailed + overruns d K len t (k + 1) s.w.dev s.meta ≤ 5
  brk_iff : out.1 = LoopExit.brk ↔ 5 < out.2.nfailed
  nfailed_le : out.2.nfailed ≤ 6
  status_last : 0 < j → out.2.status = (rx_answer d len t (j - 1) s.w.dev s.meta).1
  status_none : j = 0 → out.2.status = 0
  cond_zero : out.1 = LoopExit.cond → out.2.status = 0 → n ≤ s.i + j
  fuel_exit : out.1 = LoopExit.fuel → j = fuel ∧ out.2.status = 0 ∧ s.i + j < n
  brk_exit : out.1 = LoopExit.brk → 0 < j ∧ out.2.status = 0

/-! ## Unfolding the loop -/

section Loop

variable {σ : Type} (d : Device σ) (K : LibBladeRF) (len n t : Nat)

theorem rx_for_cond_false (fuel : Nat) (s : LoopState σ)
    (h : ¬ (s.i < n ∧ s.status = 0)) :
    rx_for d K len n t fuel s = (LoopExit.cond, s) := by
  cases fuel <;> simp [rx_for, h]

theorem rx_for_zero (s : LoopState σ) (h : s.i < n ∧ s.status = 0) :
    rx_for d K len n t 0 s = (LoopExit.fuel, s) := by
  simp [rx_for, h]

theorem rx_for_succ (fuel : Nat) (s : LoopState σ) (h : s.i < n ∧ s.status = 0) :
    rx_for d K len n t (fuel + 1) s =
      if (rx_body d K len t s).1 then (LoopExit.brk, (rx_body d K len t s).2)
      else rx_for d K len n t fuel
        { (rx_body d K len t s).2 with i := (rx_body d K len t s).2.i + 1 } := by
  simp [rx_for, h]

theorem rx_answer_succ (k : Nat) (st : σ) (m : bladerf_metadata) :
    rx_answer d len t (k + 1) st m =
      rx_answer d len t k (d.sync_rx st m len t).2.2 (d.sync_rx st m len t).2.1 := rfl

theorem overruns_zero (st : σ) (m : bladerf_metadata) : overruns d K len t 0 st m = 0 := rfl

/-- Counting from the back: the `j`-th answer adds one exactly when it is an
overrun. -/
theorem overruns_succ (j : Nat) (st : σ) (m : bladerf_metadata) :
    overruns d K len t (j + 1) st m =
      overruns d K len t j st m + (if is_overrun K (rx_answer d len t j st m) then 1 else 0) := by
  simp [overruns, List.range_succ, List.countP_append, List.countP_cons]

/-- Counting from the front: the first answer is split off, the others are the
answers of the device in the state the first request left. -/
theorem overruns_shift (j : Nat) (st : σ) (m : bladerf_metadata) :
    overruns d K len t (j + 1) st m =
      (if is_overrun K (rx_answer d len t 0 st m) then 1 else 0) +
        overruns d K len t j (d.sync_rx st m len t).2.2 (d.sync_rx st m len t).2.1 := by
  simp only [overruns, List.range_succ_eq_map, List.countP_cons, List.countP_map]
  rw [Nat.add_comm]
  rfl

theorem overruns_le (j : Nat) (st : σ) (m : bladerf_metadata) :
    overruns d K len t j st m ≤ j := by
  have h := List.countP_le_length
    (fun k => is_overrun K (rx_answer d len t k st m)) (l := List.range j)
  simpa [overruns] using h

theorem overruns_mono {j k : Nat} (h : j ≤ k) (st : σ) (m : bladerf_metadata) :
    overruns d K len t j st m ≤ overruns d K len t k st m := by
  induction k with
  | zero =>
    have : j = 0 := by omega
    subst this; exact Nat.le_refl _
  | succ k ih =>
    rcases Nat.lt_or_ge j (k + 1) with h1 | h1
    · have := ih (by omega)
      rw [overruns_succ]; omega
    · have : j = k + 1 := by omega
      subst this; exact Nat.le_refl _

theorem overruns_one (st : σ) (m : bladerf_metadata) :
    overruns d K len t 1 st m = if is_overrun K (rx_answer d len t 0 st m) then 1 else 0 := by
  rw [overruns_succ, overruns_zero, Nat.zero_add]

/-- The effect of one execution of the loop body, in terms of the answer of the
device. -/
theorem rx_body_facts (s : LoopState σ) :
    (rx_body d K len t s).2.status = (rx_answer d len t 0 s.w.dev s.meta).1 ∧
    (rx_body d K len t s).2.meta = (d.sync_rx s.w.dev s.meta len t).2.1 ∧
    (rx_body d K len t s).2.w.dev = (d.sync_rx s.w.dev s.meta len t).2.2 ∧
    (rx_body d K len t s).2.w.trace = s.w.trace ++ [DevCall.sync_rx len t] ∧
    (rx_body d K len t s).2.i = s.i ∧
    (rx_body d K len t s).2.nfailed = s.nfailed +
      (if is_overrun K (rx_answer d len t 0 s.w.dev s.meta) then 1 else 0) ∧
    ((rx_body d K len t s).1 = true ↔
      is_overrun K (rx_answer d len t 0 s.w.dev s.meta) = true ∧ 5 < s.nfailed + 1) := by
  simp only [rx_body, rx_answer, is_overrun]
  by_cases h1 : (d.sync_rx s.w.dev s.meta len t).1 = 0
  · by_cases h2 : (d.sync_rx s.w.dev s.meta len t).2.1.status &&&
        K.BLADERF_META_STATUS_OVERRUN = 0
    · simp [h1, h2]
    · by_cases h3 : 5 < s.nfailed + 1
      · simp [h1, h2, h3]
      · simp [h1, h2, h3]
  · simp [h1]

theorem rx_for_facts (fuel : Nat) : ∀ (s : LoopState σ), s.status = 0 → s.nfailed ≤ 5 →
    ∃ j, RunFacts d K len n t s fuel (rx_for d K len n t fuel s) j := by
  induction fuel with
  | zero =>
    intro s hs hnf
    refine ⟨0, ?_⟩
    by_cases hc : s.i < n ∧ s.status = 0
    · rw [rx_for_zero d K len n t s hc]
      constructor <;> simp [hs, overruns_zero] <;> omega
    · rw [rx_for_cond_false d K len n t 0 s hc]
      have : n ≤ s.i := by
        by_contra h; exact hc ⟨by omega, hs⟩
      constructor <;> simp [hs, overruns_zero] <;> omega
  | succ fuel ih =>
    intro s hs hnf
    by_cases hc : s.i < n ∧ s.status = 0
    · rw [rx_for_succ d K len n t fuel s hc]
      obtain ⟨bst, bmeta, bdev, btr, bi, bnf, bbrk⟩ := rx_body_facts d K len t s
      have hov1 := overruns_one d K len t s.w.dev s.meta
      by_cases hb : (rx_body d K len t s).1 = true
      · -- the body ended in `break`
        rw [if_pos hb]
        obtain ⟨hov, h5⟩ := bbrk.mp hb
        have hst : (rx_answer d len t 0 s.w.dev s.meta).1 = 0 := by
          simp only [is_overrun, Bool.and_eq_true, beq_iff_eq] at hov
          exact hov.1
        rw [if_pos hov] at bnf hov1
        refine ⟨1, ?_⟩
        constructor
        · simpa using btr
        · omega
        · omega
        · simp only [bnf, hov1]
        · intro k hk; omega
        · simp only [bnf, true_iff]; omega
        · simp only [bnf]; omega
        · intro _; simpa [hst] using bst
        · intro h; omega
        · intro h; simp at h
        · intro h; simp at h
        · intro _; exact ⟨by omega, by simpa [hst] using bst⟩
      · rw [if_neg hb]
        by_cases hz : (rx_body d K len t s).2.status = 0
        · -- the loop goes on with the next iteration
          have hnf1 : (rx_body d K len t s).2.nfailed ≤ 5 := by
            by_cases hov : is_overrun K (rx_answer d len t 0 s.w.dev s.meta) = true
            · have : ¬ 5 < s.nfailed + 1 := fun h => hb (bbrk.mpr ⟨hov, h⟩)
              rw [if_pos hov] at bnf; omega
            · rw [if_neg hov] at bnf; omega
          obtain ⟨j, hf⟩ := ih { (rx_body d K len t s).2 with
            i := (rx_body d K len t s).2.i + 1 } hz hnf1
          have hsh : ∀ k, rx_answer d len t k (rx_body d K len t s).2.w.dev
              (rx_body d K len t s).2.meta = rx_answer d len t (k + 1) s.w.dev s.meta := by
            intro k; rw [rx_answer_succ, bdev, bmeta]
          have hsho : ∀ k, s.nfailed + overruns d K len t (k + 1) s.w.dev s.meta =
              (rx_body d K len t s).2.nfailed + overruns d K len t k
                (rx_body d K len t s).2.w.dev (rx_body d K len t s).2.meta := by
            intro k; rw [overruns_shift, bdev, bmeta, bnf]; omega
          refine ⟨j + 1, ?_⟩
          constructor
          · rw [hf.trace]
            simp only [btr, List.replicate_succ, List.append_assoc, List.singleton_append]
          · have := hf.le_fuel; omega
          · have := hf.le_target; simp only [bi] at this; omega
          · rw [hf.nfailed, hsho]
          · intro k hk
            cases k with
            | zero =>
              refine ⟨by rw [← bst]; exact hz, ?_⟩
              rw [hsho 0, overruns_zero]; simpa using hnf1
            | succ k =>
              have := hf.earlier k (by omega)
              simp only at this
              rw [hsh, ← hsho] at this
              exact this
          · exact hf.brk_iff
          · exact hf.nfailed_le
          · intro _
            rcases Nat.eq_zero_or_pos j with h0 | hpos
            · subst h0
              rw [hf.status_none rfl]
              simp only [Nat.zero_add, Nat.sub_self]
              rw [← bst]; exact hz.symm
            · have := hf.status_last hpos
              simp only at this
              rw [hsh] at this
              have e : j - 1 + 1 = j + 1 - 1 := by omega
              rw [e] at this; exact this
          · intro h; omega
          · intro h1 h2
            have := hf.cond_zero h1 h2
            simp only [bi] at this; omega
          · intro h1
            have h := hf.fuel_exit h1
            have h3 := h.2.2
            simp only [bi] at h3
            exact ⟨by omega, h.2.1, by omega⟩
          · intro h1
            exact ⟨by omega, (hf.brk_exit h1).2⟩
        · -- the request failed: the condition is false at the next test
          rw [rx_for_cond_false d K len n t fuel _ (by simp [hz])]
          have hnov : ¬ is_overrun K (rx_answer d len t 0 s.w.dev s.meta) = true := by
            intro hov
            simp only [is_overrun, Bool.and_eq_true, beq_iff_eq] at hov
            exact hz (by rw [bst]; exact hov.1)
          rw [if_neg hnov] at bnf hov1
          refine ⟨1, ?_⟩
          constructor
          · simpa using btr
          · omega
          · omega
          · simp only [bnf, hov1]
          · intro k hk; omega
          · simp only [bnf]
            constructor
            · intro h; simp at h
            · intro h; omega
          · simp only [bnf]; omega
          · intro _; simpa using bst
          · intro h; omega
          · intro _ h; exact absurd h hz
          · intro h; simp at h
          · intro h; simp at h
    · rw [rx_for_cond_false d K len n t (fuel + 1) s hc]
      have : n ≤ s.i := by
        by_contra h; exact hc ⟨by omega, hs⟩
      refine ⟨0, ?_⟩
      constructor <;> simp [hs, overruns_zero] <;> omega

theorem rx_init_i (w : World σ) : (rx_init K w).i = 0 := rfl

theorem rx_init_status (w : World σ) : (rx_init K w).status = 0 := rfl

theorem rx_init_nfailed (w : World σ) : (rx_init K w).nfailed = 0 := rfl

theorem rx_init_meta (w : World σ) : (rx_init K w).meta = meta_init K := rfl

theorem rx_init_w (w : World σ) : (rx_init K w).w = w := rfl

/-- The facts of `RunFacts` for a run from the entry state of the function,
with the number of requests read off the trace. -/
theorem run_facts (w : World σ) (fuel : Nat) :
    RunFacts d K len n t (rx_init K w) fuel (rx_for d K len n t fuel (rx_init K w))
      (requests_issued w (rx_for d K len n t fuel (rx_init K w)).2) := by
  obtain ⟨j, hf⟩ := rx_for_facts d K len n t fuel (rx_init K w) rfl (by simp [rx_init])
  have hj : requests_issued w (rx_for d K len n t fuel (rx_init K w)).2 = j := by
    have := hf.trace
    simp only [rx_init] at this
    simp [requests_issued, rx_init, this]
  rw [hj]; exact hf

/-- One more unit of budget continues a run that had stopped for lack of
budget by one iteration, and changes nothing otherwise. -/
theorem rx_for_step (fuel : Nat) : ∀ (s : LoopState σ),
    rx_for d K len n t (fuel + 1) s =
      if (rx_for d K len n t fuel s).1 = LoopExit.fuel
      then rx_for d K len n t 1 (rx_for d K len n t fuel s).2
      else rx_for d K len n t fuel s := by
  induction fuel with
  | zero =>
    intro s
    by_cases hc : s.i < n ∧ s.status = 0
    · rw [rx_for_zero d K len n t s hc]; simp
    · rw [rx_for_cond_false d K len n t 0 s hc, rx_for_cond_false d K len n t (0 + 1) s hc]; simp
  | succ fuel ih =>
    intro s
    by_cases hc : s.i < n ∧ s.status = 0
    · rw [rx_for_succ d K len n t (fuel + 1) s hc, rx_for_succ d K len n t fuel s hc]
      by_cases hb : (rx_body d K len t s).1 = true
      · simp [hb]
      · simp only [hb, Bool.false_eq_true, if_false]
        exact ih _
    · rw [rx_for_cond_false d K len n t (fuel + 1) s hc,
        rx_for_cond_false d K len n t (fuel + 1 + 1) s hc]; simp

/-- A run that left the loop is not changed by a larger budget. -/
theorem rx_for_stable (fuel extra : Nat) (s : LoopState σ)
    (h : (rx_for d K len n t fuel s).1 ≠ LoopExit.fuel) :
    rx_for d K len n t (fuel + extra) s = rx_for d K len n t fuel s := by
  induction extra with
  | zero => rfl
  | succ e ih =>
    rw [← Nat.add_assoc, rx_for_step, ih, if_neg h]

/-- The budget `rx_count` is enough: the function always leaves its loop
through the loop condition or through the `break`. -/
theorem rx_for_total (w : World σ) :
    (sync_rx_meta_now_example d K w len n t).1 ≠ LoopExit.fuel := by
  intro h
  have hf := run_facts d K len n t w n
  have := hf.fuel_exit h
  have h2 := hf.le_target
  simp only [rx_init] at this h2
  omega

/-- While `k` is below the number of requests of the whole run, the run with
budget `k` is stopped by the budget, at the head of iteration `k`. -/
theorem rx_for_running (w : World σ) (k : Nat)
    (hk : k < requests_issued w (sync_rx_meta_now_example d K w len n t).2) :
    (rx_for d K len n t k (rx_init K w)).1 = LoopExit.fuel ∧
    requests_issued w (rx_for d K len n t k (rx_init K w)).2 = k := by
  have hfk := run_facts d K len n t w k
  have hfn := run_facts d K len n t w n
  have hkn : k ≤ n := by
    have := hfn.le_fuel
    simp only [sync_rx_meta_now_example] at hk
    omega
  by_cases he : (rx_for d K len n t k (rx_init K w)).1 = LoopExit.fuel
  · exact ⟨he, (hfk.fuel_exit he).1⟩
  · exfalso
    have hst := rx_for_stable d K len n t k (n - k) (rx_init K w) he
    have e : k + (n - k) = n := by omega
    rw [e] at hst
    simp only [sync_rx_meta_now_example, hst] at hk
    have := hfk.le_fuel
    omega

theorem rx_for_fuel_cond (fuel : Nat) : ∀ (s : LoopState σ),
    (rx_for d K len n t fuel s).1 = LoopExit.fuel →
    (rx_for d K len n t fuel s).2.i < n ∧ (rx_for d K len n t fuel s).2.status = 0 := by
  induction fuel with
  | zero =>
    intro s h
    by_cases hc : s.i < n ∧ s.status = 0
    · rw [rx_for_zero d K len n t s hc]; exact hc
    · rw [rx_for_cond_false d K len n t 0 s hc] at h; simp at h
  | succ fuel ih =>
    intro s h
    by_cases hc : s.i < n ∧ s.status = 0
    · rw [rx_for_succ d K len n t fuel s hc] at h ⊢
      by_cases hb : (rx_body d K len t s).1 = true
      · rw [if_pos hb] at h; simp at h
      · rw [if_neg hb] at h ⊢
        exact ih _ h
    · rw [rx_for_cond_false d K len n t (fuel + 1) s hc] at h; simp at h

theorem rx_for_zero_state (s : LoopState σ) : (rx_for d K len n t 0 s).2 = s := by
  simp only [rx_for]
  split <;> rfl

/-- A single iteration from a state in which the loop condition holds: one
request is recorded and the overrun counter goes up by at most one. -/
theorem rx_for_one (s : LoopState σ) (hc : s.i < n ∧ s.status = 0) :
    (rx_for d K len n t 1 s).2.w.trace = s.w.trace ++ [DevCall.sync_rx len t] ∧
    s.nfailed ≤ (rx_for d K len n t 1 s).2.nfailed ∧
    (rx_for d K len n t 1 s).2.nfailed ≤ s.nfailed + 1 := by
  obtain ⟨-, -, -, btr, -, bnf, -⟩ := rx_body_facts d K len t s
  have h1 : (rx_for d K len n t 1 s).2.w.trace = (rx_body d K len t s).2.w.trace ∧
      (rx_for d K len n t 1 s).2.nfailed = (rx_body d K len t s).2.nfailed := by
    rw [rx_for_succ d K len n t 0 s hc]
    by_cases hb : (rx_body d K len t s).1 = true
    · rw [if_pos hb]; exact ⟨rfl, rfl⟩
    · rw [if_neg hb]
      rw [rx_for_zero_state]
      exact ⟨rfl, rfl⟩
  rw [h1.1, h1.2, btr, bnf]
  refine ⟨rfl, ?_, ?_⟩ <;> split <;> omega

theorem overruns_all (m : Nat) (st : σ) (mt : bladerf_metadata)
    (h : ∀ k, k < m → is_overrun K (rx_answer d len t k st mt) = true) :
    overruns d K len t m st mt = m := by
  induction m with
  | zero => rfl
  | succ m ih =>
    rw [overruns_succ, ih (fun k hk => h k (by omega)), if_pos (h m (by omega))]

theorem is_overrun_status {a : Int × bladerf_metadata} (h : is_overrun K a = true) : a.1 = 0 := by
  simp only [is_overrun, Bool.and_eq_true, beq_iff_eq] at h
  exact h.1

end Loop

/-! ## The acquisition loop: overrun threshold, transport errors, scenarios -/

/-- C1: `sync_rx_meta_now_example` leaves its loop through the `break` of the
overrun branch exactly when the number of overrun results it has received
exceeds 5.  The overrun counter equals that number; a zero-status result that
leaves the cumulative number of overruns at 5 or less is followed by another
request whenever the target is not yet reached; a result that brings it above
5 is the last request issued. -/
theorem c1_overrun_threshold_exit {σ : Type} (d : Device σ) (K : LibBladeRF) (w : World σ)
    (len n t : Nat) :
    let out := sync_rx_meta_now_example d K w len n t
    let j := requests_issued w out.2
    out.2.w.trace = w.trace ++ List.replicate j (DevCall.sync_rx len t) ∧
    out.2.nfailed = overruns d K len t j w.dev (meta_init K) ∧
    (out.1 = LoopExit.brk ↔ 5 < overruns d K len t j w.dev (meta_init K)) ∧
    (∀ k, k < j → (rx_answer d len t k w.dev (meta_init K)).1 = 0 →
      overruns d K len t (k + 1) w.dev (meta_init K) ≤ 5 → k + 1 < n → k + 1 < j) ∧
    (∀ k, k < j → 5 < overruns d K len t (k + 1) w.dev (meta_init K) → j = k + 1) := by
  intro out j
  have hf : RunFacts d K len n t (rx_init K w) n out j := run_facts d K len n t w n
  have htot : out.1 ≠ LoopExit.fuel := rx_for_total d K len n t w
  have hnf : out.2.nfailed = overruns d K len t j w.dev (meta_init K) := by
    have := hf.nfailed
    simpa [rx_init_i, rx_init_status, rx_init_nfailed, rx_init_meta, rx_init_w] using this
  refine ⟨hf.trace, hnf, ?_, ?_, ?_⟩
  · rw [← hnf]; exact hf.brk_iff
  · intro k hk hz h5 hkn
    by_contra hlt
    have hj : j = k + 1 := by omega
    have hst : out.2.status = 0 := by
      have := hf.status_last (by omega)
      simp only [rx_init_i, rx_init_status, rx_init_nfailed, rx_init_meta, rx_init_w, hj, Nat.add_sub_cancel] at this
      rw [this]; exact hz
    have hnb : out.1 ≠ LoopExit.brk := by
      intro hb
      have := hf.brk_iff.mp hb
      rw [hnf, hj] at this
      omega
    have hcond : out.1 = LoopExit.cond := by
      cases h : out.1 <;> simp_all
    have := hf.cond_zero hcond hst
    simp only [rx_init_i, rx_init_status, rx_init_nfailed, rx_init_meta, rx_init_w] at this
    omega
  · intro k hk h5
    by_contra hne
    have := (hf.earlier k (by omega)).2
    simp only [rx_init_i, rx_init_status, rx_init_nfailed, rx_init_meta, rx_init_w] at this
    omega

/-- C2: if the request of index `k` (the `k+1`-th issued) returns a non-zero
status, it is the last request, the function returns that status, leaving the
loop through its condition, and the overrun counter ends at the value it had
when that request was issued, the number of overruns among the `k` earlier
results. -/
theorem c2_transport_error_halts {σ : Type} (d : Device σ) (K : LibBladeRF) (w : World σ)
    (len n t k : Nat)
    (hk : k < requests_issued w (sync_rx_meta_now_example d K w len n t).2)
    (herr : (rx_answer d len t k w.dev (meta_init K)).1 ≠ 0) :
    requests_issued w (sync_rx_meta_now_example d K w len n t).2 = k + 1 ∧
    (sync_rx_meta_now_example d K w len n t).2.w.trace =
      w.trace ++ List.replicate (k + 1) (DevCall.sync_rx len t) ∧
    (sync_rx_meta_now_example d K w len n t).1 = LoopExit.cond ∧
    (sync_rx_meta_now_example d K w len n t).2.status =
      (rx_answer d len t k w.dev (meta_init K)).1 ∧
    (rx_for d K len n t k (rx_init K w)).1 = LoopExit.fuel ∧
    (sync_rx_meta_now_example d K w len n t).2.nfailed =
      (rx_for d K len n t k (rx_init K w)).2.nfailed ∧
    (sync_rx_meta_now_example d K w len n t).2.nfailed =
      overruns d K len t k w.dev (meta_init K) := by
  have hf := run_facts d K len n t w n
  have hrun := rx_for_running d K len n t w k hk
  have hfk := run_facts d K len n t w k
  have htot := rx_for_total d K len n t w
  simp only [sync_rx_meta_now_example] at hk htot ⊢
  have hj : requests_issued w (rx_for d K len n t n (rx_init K w)).2 = k + 1 := by
    by_contra hne
    have := (hf.earlier k (by omega)).1
    simp only [rx_init_i, rx_init_status, rx_init_nfailed, rx_init_meta, rx_init_w] at this
    exact herr this
  have hst : (rx_for d K len n t n (rx_init K w)).2.status =
      (rx_answer d len t k w.dev (meta_init K)).1 := by
    have := hf.status_last (by omega)
    simpa [rx_init_i, rx_init_status, rx_init_nfailed, rx_init_meta, rx_init_w, hj] using this
  have hnov : ¬ is_overrun K (rx_answer d len t k w.dev (meta_init K)) = true :=
    fun h => herr (is_overrun_status K h)
  have hnf : (rx_for d K len n t n (rx_init K w)).2.nfailed =
      overruns d K len t k w.dev (meta_init K) := by
    have := hf.nfailed
    rw [hj, overruns_succ, if_neg (by simpa [rx_init_i, rx_init_status, rx_init_nfailed, rx_init_meta, rx_init_w] using hnov)] at this
    simpa [rx_init_i, rx_init_status, rx_init_nfailed, rx_init_meta, rx_init_w] using this
  have hnfk : (rx_for d K len n t k (rx_init K w)).2.nfailed =
      overruns d K len t k w.dev (meta_init K) := by
    have := hfk.nfailed
    rw [hrun.2] at this
    simpa [rx_init_i, rx_init_status, rx_init_nfailed, rx_init_meta, rx_init_w] using this
  refine ⟨hj, ?_, ?_, hst, hrun.1, by rw [hnf, hnfk], hnf⟩
  · have := hf.trace
    rw [hj] at this; exact this
  · have hnb : (rx_for d K len n t n (rx_init K w)).1 ≠ LoopExit.brk := by
      intro hb
      have := (hf.brk_exit hb).2
      rw [hst] at this
      exact herr this
    cases h : (rx_for d K len n t n (rx_init K w)).1 <;> simp_all

/-- C6: when the first `n` results all have zero status and at most 5 of them
are overruns, the function issues exactly `n` requests, leaves the loop
through its condition, returns 0, and its overrun counter ends at the number
of overruns among those `n` results. -/
theorem c6_normal_completion {σ : Type} (d : Device σ) (K : LibBladeRF) (w : World σ)
    (len n t : Nat)
    (h0 : ∀ k, k < n → (rx_answer d len t k w.dev (meta_init K)).1 = 0)
    (h5 : overruns d K len t n w.dev (meta_init K) ≤ 5) :
    requests_issued w (sync_rx_meta_now_example d K w len n t).2 = n ∧
    (sync_rx_meta_now_example d K w len n t).2.w.trace =
      w.trace ++ List.replicate n (DevCall.sync_rx len t) ∧
    (sync_rx_meta_now_example d K w len n t).1 = LoopExit.cond ∧
    (sync_rx_meta_now_example d K w len n t).2.status = 0 ∧
    (sync_rx_meta_now_example d K w len n t).2.nfailed =
      overruns d K len t n w.dev (meta_init K) := by
  have hf := run_facts d K len n t w n
  have htot := rx_for_total d K len n t w
  simp only [sync_rx_meta_now_example] at htot ⊢
  have hle := hf.le_target
  simp only [rx_init_i, rx_init_status, rx_init_nfailed, rx_init_meta, rx_init_w, Nat.sub_zero] at hle
  have hnf := hf.nfailed
  simp only [rx_init_i, rx_init_status, rx_init_nfailed, rx_init_meta, rx_init_w, Nat.zero_add] at hnf
  have hnb : (rx_for d K len n t n (rx_init K w)).1 ≠ LoopExit.brk := by
    intro hb
    have h6 := hf.brk_iff.mp hb
    have := overruns_mono d K len t hle w.dev (meta_init K)
    omega
  have hcond : (rx_for d K len n t n (rx_init K w)).1 = LoopExit.cond := by
    cases h : (rx_for d K len n t n (rx_init K w)).1 <;> simp_all
  have hst : (rx_for d K len n t n (rx_init K w)).2.status = 0 := by
    rcases Nat.eq_zero_or_pos
      (requests_issued w (rx_for d K len n t n (rx_init K w)).2) with hz | hp
    · exact hf.status_none hz
    · rw [hf.status_last hp]
      exact h0 _ (by omega)
  have hj : requests_issued w (rx_for d K len n t n (rx_init K w)).2 = n := by
    have := hf.cond_zero hcond hst
    simp only [rx_init_i, rx_init_status, rx_init_nfailed, rx_init_meta, rx_init_w] at this
    omega
  refine ⟨hj, ?_, hcond, hst, ?_⟩
  · have := hf.trace
    rw [hj] at this; exact this
  · rw [hnf, hj]

/-- C7, as amended: with a target above 6 and six overruns as the first six
results, the function issues exactly 6 requests and leaves the loop through
the `break` with its overrun counter at 6; the status it returns is 0, the
value a normal completion returns. -/
theorem c7_six_overruns_stop {σ : Type} (d : Device σ) (K : LibBladeRF) (w : World σ)
    (len n t : Nat) (hn : 6 < n)
    (hov : ∀ k, k < 6 → is_overrun K (rx_answer d len t k w.dev (meta_init K)) = true) :
    requests_issued w (sync_rx_meta_now_example d K w len n t).2 = 6 ∧
    (sync_rx_meta_now_example d K w len n t).2.w.trace =
      w.trace ++ List.replicate 6 (DevCall.sync_rx len t) ∧
    (sync_rx_meta_now_example d K w len n t).1 = LoopExit.brk ∧
    (sync_rx_meta_now_example d K w len n t).2.nfailed = 6 ∧
    (sync_rx_meta_now_example d K w len n t).2.status = 0 := by
  have hf := run_facts d K len n t w n
  have htot := rx_for_total d K len n t w
  simp only [sync_rx_meta_now_example] at htot ⊢
  have hnf := hf.nfailed
  simp only [rx_init_nfailed, rx_init_w, rx_init_meta, Nat.zero_add] at hnf
  have h6 : overruns d K len t 6 w.dev (meta_init K) = 6 := overruns_all d K len t 6 _ _ hov
  have hle : requests_issued w (rx_for d K len n t n (rx_init K w)).2 ≤ 6 := by
    by_contra hgt
    have := (hf.earlier 5 (by omega)).2
    simp only [rx_init_nfailed, rx_init_w, rx_init_meta] at this
    have h56 : overruns d K len t (5 + 1) w.dev (meta_init K) = 6 := h6
    omega
  have hge : 6 ≤ requests_issued w (rx_for d K len n t n (rx_init K w)).2 := by
    by_contra hlt
    have hnb : (rx_for d K len n t n (rx_init K w)).1 ≠ LoopExit.brk := by
      intro hb
      have h5 := hf.brk_iff.mp hb
      have := overruns_le d K len t
        (requests_issued w (rx_for d K len n t n (rx_init K w)).2) w.dev (meta_init K)
      omega
    have hcond : (rx_for d K len n t n (rx_init K w)).1 = LoopExit.cond := by
      cases h : (rx_for d K len n t n (rx_init K w)).1 <;> simp_all
    have hst : (rx_for d K len n t n (rx_init K w)).2.status = 0 := by
      rcases Nat.eq_zero_or_pos
        (requests_issued w (rx_for d K len n t n (rx_init K w)).2) with hz | hp
      · exact hf.status_none hz
      · rw [hf.status_last hp]
        exact is_overrun_status K (hov _ (by omega))
    have := hf.cond_zero hcond hst
    simp only [rx_init_i] at this
    omega
  have hj : requests_issued w (rx_for d K len n t n (rx_init K w)).2 = 6 := by omega
  rw [hj] at hnf
  have hb : (rx_for d K len n t n (rx_init K w)).1 = LoopExit.brk :=
    hf.brk_iff.mpr (by omega)
  refine ⟨hj, ?_, hb, by omega, (hf.brk_exit hb).2⟩
  have := hf.trace
  rw [hj] at this; exact this

/-- C9: in any iteration in which the device returns a non-zero status with
the overrun flag set in the metadata status, the body does not take the
overrun branch: the overrun counter keeps its value, the body does not
`break`, and the loop is left through its condition after this one request,
with the non-zero status as the value to return. -/
theorem c9_error_with_overrun_flag {σ : Type} (d : Device σ) (K : LibBladeRF)
    (len n t fuel : Nat) (s : LoopState σ) (hrun : s.i < n ∧ s.status = 0)
    (herr : (d.sync_rx s.w.dev s.meta len t).1 ≠ 0)
    (_hflag : (d.sync_rx s.w.dev s.meta len t).2.1.status &&&
      K.BLADERF_META_STATUS_OVERRUN ≠ 0) :
    (rx_body d K len t s).1 = false ∧
    (rx_for d K len n t (fuel + 1) s).1 = LoopExit.cond ∧
    (rx_for d K len n t (fuel + 1) s).2.nfailed = s.nfailed ∧
    (rx_for d K len n t (fuel + 1) s).2.status = (d.sync_rx s.w.dev s.meta len t).1 ∧
    (rx_for d K len n t (fuel + 1) s).2.w.trace = s.w.trace ++ [DevCall.sync_rx len t] ∧
    (rx_for d K len n t (fuel + 1) s).2.i = s.i + 1 := by
  have hb : rx_body d K len t s =
      (false, { s with status := (d.sync_rx s.w.dev s.meta len t).1,
                       meta := (d.sync_rx s.w.dev s.meta len t).2.1,
                       w := ⟨(d.sync_rx s.w.dev s.meta len t).2.2,
                             s.w.trace ++ [DevCall.sync_rx len t]⟩ }) := by
    simp [rx_body, herr]
  have hfor : rx_for d K len n t (fuel + 1) s =
      (LoopExit.cond, { s with i := s.i + 1, status := (d.sync_rx s.w.dev s.meta len t).1,
                               meta := (d.sync_rx s.w.dev s.meta len t).2.1,
                               w := ⟨(d.sync_rx s.w.dev s.meta len t).2.2,
                                     s.w.trace ++ [DevCall.sync_rx len t]⟩ }) := by
    rw [rx_for_succ d K len n t fuel s hrun, hb, if_neg (by simp)]
    rw [rx_for_cond_false d K len n t fuel _ (by simp [herr])]
  rw [hfor, hb]
  exact ⟨rfl, rfl, rfl, rfl, rfl, rfl⟩

/-- C10: the loop states of `sync_rx_meta_now_example` evolve monotonically.
`rx_for .. fuel (rx_init K w)` is the loop state after at most `fuel`
iterations, and the result of the function is the one for `fuel = rx_count`.
Once the loop is left the state stays; otherwise the next iteration records
exactly one request and raises the overrun counter by zero or one.  In every
such state the requests issued are at most the target, and the overrun counter
is at most 6 and at most the number of requests issued; a target of 0 issues
no request. -/
theorem c10_loop_state_monotone {σ : Type} (d : Device σ) (K : LibBladeRF) (w : World σ)
    (len n t fuel : Nat) :
    let a := rx_for d K len n t fuel (rx_init K w)
    let b := rx_for d K len n t (fuel + 1) (rx_init K w)
    (a.1 ≠ LoopExit.fuel → b = a) ∧
    (a.1 = LoopExit.fuel →
      b.2.w.trace = a.2.w.trace ++ [DevCall.sync_rx len t] ∧
      requests_issued w b.2 = requests_issued w a.2 + 1 ∧
      a.2.nfailed ≤ b.2.nfailed ∧ b.2.nfailed ≤ a.2.nfailed + 1) ∧
    a.2.w.trace = w.trace ++ List.replicate (requests_issued w a.2) (DevCall.sync_rx len t) ∧
    requests_issued w a.2 ≤ n ∧
    a.2.nfailed ≤ 6 ∧
    a.2.nfailed ≤ requests_issued w a.2 ∧
    (n = 0 → requests_issued w a.2 = 0) ∧
    sync_rx_meta_now_example d K w len n t = rx_for d K len n t n (rx_init K w) ∧
    (sync_rx_meta_now_example d K w len n t).1 ≠ LoopExit.fuel := by
  intro a b
  have hf : RunFacts d K len n t (rx_init K w) fuel a (requests_issued w a.2) :=
    run_facts d K len n t w fuel
  have hstep : b = if a.1 = LoopExit.fuel then rx_for d K len n t 1 a.2 else a :=
    rx_for_step d K len n t fuel (rx_init K w)
  have hle := hf.le_target
  simp only [rx_init_i, Nat.sub_zero] at hle
  have hnf := hf.nfailed
  simp only [rx_init_nfailed, rx_init_w, rx_init_meta, Nat.zero_add] at hnf
  have hov := overruns_le d K len t (requests_issued w a.2) w.dev (meta_init K)
  refine ⟨?_, ?_, hf.trace, hle, hf.nfailed_le, by omega, by omega, rfl,
    rx_for_total d K len n t w⟩
  · intro h; rw [hstep, if_neg h]
  · intro h
    rw [hstep, if_pos h]
    have hc := rx_for_fuel_cond d K len n t fuel (rx_init K w) h
    obtain ⟨h1, h2, h3⟩ := rx_for_one d K len n t a.2 hc
    refine ⟨h1, ?_, h2, h3⟩
    have htr := hf.trace
    simp only [rx_init_w] at htr
    have hlen : a.2.w.trace.length = w.trace.length + requests_issued w a.2 := by
      have := congrArg List.length htr
      simpa [List.length_append, List.length_replicate] using this
    have hb1 : requests_issued w (rx_for d K len n t 1 a.2).2 =
        a.2.w.trace.length + 1 - w.trace.length := by
      simp [requests_issued, h1]
    omega

/-! ## `configure_channel` and `main` -/

section Main

variable {σ : Type} (d : Device σ) (K : LibBladeRF)

theorem invoke_trace (w : World σ) (c : DevCall) :
    (invoke d w c).2.trace = w.trace ++ [c] := rfl

/-- The calls of `configure_channel` are an initial part of its four setters. -/
theorem configure_channel_trace (w : World σ) (c : channel_config) :
    ∃ m, (configure_channel d w c).2.trace = w.trace ++ (config_calls c).take m := by
  simp only [configure_channel]
  split
  · exact ⟨1, by simp [invoke, config_calls]⟩
  · split
    · exact ⟨2, by simp [invoke, config_calls]⟩
    · split
      · exact ⟨3, by simp [invoke, config_calls]⟩
      · split <;> exact ⟨4, by simp [invoke, config_calls]⟩

theorem main_out_trace (w : World σ) (buffer : Pointer) (status : Int) :
    (main_out d w buffer status).2.trace = w.trace ++ [DevCall.close] := by
  simp only [main_out]
  split <;> rfl

/-- The function `main` along the results of its successive calls. -/
theorem main_eq (w : World σ) (argv : List (List Nat)) (malloc_ok : Bool) :
    main d K w argv malloc_ok =
      if (main_open d K w argv).1 ≠ 0 then (some 1, (main_open d K w argv).2)
      else if (main_configured d K w argv).1 ≠ 0 then
        main_out d (main_configured d K w argv).2 Pointer.indeterminate
          (main_configured d K w argv).1
      else if (main_synced d K w argv).1 ≠ 0 then
        main_out d (main_synced d K w argv).2 Pointer.indeterminate (main_synced d K w argv).1
      else if (main_enabled d K w argv).1 ≠ 0 then
        main_out d (main_enabled d K w argv).2 Pointer.indeterminate
          (main_enabled d K w argv).1
      else if ¬ malloc_ok then (some K.BLADERF_ERR_MEM, (main_enabled d K w argv).2)
      else main_out d (main_acquired d K w argv).2.w Pointer.allocated
        (main_enabled d K w argv).1 := rfl

theorem mem_config_calls {c : channel_config} {m : Nat} {x : DevCall}
    (h : x ∈ (config_calls c).take m) : is_sync_rx x = false ∧ is_disable x = false := by
  have hx := List.mem_of_mem_take h
  simp only [config_calls, List.mem_cons, List.mem_singleton, List.not_mem_nil, or_false] at hx
  rcases hx with rfl | rfl | rfl | rfl <;> exact ⟨rfl, rfl⟩

/-- The result of `main` when one of the setup steps fails or the acquisition
is reached, given that the device was opened. -/
theorem main_trace_cases (w : World σ) (argv : List (List Nat)) (malloc_ok : Bool)
    (hopen : (main_open d K w argv).1 = 0) :
    ((main_configured d K w argv).1 ≠ 0 →
      main d K w argv malloc_ok = main_out d (main_configured d K w argv).2
        Pointer.indeterminate (main_configured d K w argv).1) ∧
    ((main_configured d K w argv).1 = 0 → (main_synced d K w argv).1 ≠ 0 →
      main d K w argv malloc_ok = main_out d (main_synced d K w argv).2
        Pointer.indeterminate (main_synced d K w argv).1) ∧
    ((main_configured d K w argv).1 = 0 → (main_synced d K w argv).1 = 0 →
      (main_enabled d K w argv).1 ≠ 0 →
      main d K w argv malloc_ok = main_out d (main_enabled d K w argv).2
        Pointer.indeterminate (main_enabled d K w argv).1) ∧
    ((main_configured d K w argv).1 = 0 → (main_synced d K w argv).1 = 0 →
      (main_enabled d K w argv).1 = 0 → malloc_ok = true →
      main d K w argv malloc_ok =
        main_out d (main_acquired d K w argv).2.w Pointer.allocated 0) ∧
    ((main_configured d K w argv).1 = 0 → (main_synced d K w argv).1 = 0 →
      (main_enabled d K w argv).1 = 0 → malloc_ok = false →
      main d K w argv malloc_ok = (some K.BLADERF_ERR_MEM, (main_enabled d K w argv).2)) := by
  rw [main_eq]
  refine ⟨?_, ?_, ?_, ?_, ?_⟩
  · intro h1; simp [hopen, h1]
  · intro h1 h2; simp [hopen, h1, h2]
  · intro h1 h2 h3; simp [hopen, h1, h2, h3]
  · intro h1 h2 h3 h4; simp [hopen, h1, h2, h3, h4]
  · intro h1 h2 h3 h4; simp [hopen, h1, h2, h3, h4]

/-- When the device was opened and a setup step fails, `main` reaches
`free(buffer)` with `buffer` indeterminate: no return value is defined. -/
theorem main_setup_failure_undefined (w : World σ) (argv : List (List Nat))
    (malloc_ok : Bool) (hopen : (main_open d K w argv).1 = 0)
    (hfail : (main_configured d K w argv).1 ≠ 0 ∨ (main_synced d K w argv).1 ≠ 0 ∨
      (main_enabled d K w argv).1 ≠ 0) :
    (main d K w argv malloc_ok).1 = none := by
  obtain ⟨c1, c2, c3, -, -⟩ := main_trace_cases d K w argv malloc_ok hopen
  by_cases h1 : (main_configured d K w argv).1 = 0
  · by_cases h2 : (main_synced d K w argv).1 = 0
    · have h3 : (main_enabled d K w argv).1 ≠ 0 := by
        rcases hfail with h | h | h
        · exact absurd h1 h
        · exact absurd h2 h
        · exact h
      rw [c3 h1 h2 h3]; rfl
    · rw [c2 h1 h2]; rfl
  · rw [c1 h1]; rfl

/-- C5: `configure_channel` issues the setters in the order frequency, sample
rate, bandwidth, gain, each on the device state left by the previous one; at
the first non-zero status it returns that status with nothing else called; it
returns 0 exactly when all four setters returned 0. -/
theorem c5_configure_channel_fail_fast {σ : Type} (d : Device σ) (w : World σ)
    (c : channel_config) :
    let f := d.call w.dev (DevCall.set_frequency c.channel c.frequency)
    let r := d.call f.2 (DevCall.set_sample_rate c.channel c.samplerate)
    let b := d.call r.2 (DevCall.set_bandwidth c.channel c.bandwidth)
    let g := d.call b.2 (DevCall.set_gain c.channel c.gain)
    (f.1 ≠ 0 → configure_channel d w c =
      (f.1, ⟨f.2, w.trace ++ [DevCall.set_frequency c.channel c.frequency]⟩)) ∧
    (f.1 = 0 → r.1 ≠ 0 → configure_channel d w c =
      (r.1, ⟨r.2, w.trace ++ [DevCall.set_frequency c.channel c.frequency,
        DevCall.set_sample_rate c.channel c.samplerate]⟩)) ∧
    (f.1 = 0 → r.1 = 0 → b.1 ≠ 0 → configure_channel d w c =
      (b.1, ⟨b.2, w.trace ++ [DevCall.set_frequency c.channel c.frequency,
        DevCall.set_sample_rate c.channel c.samplerate,
        DevCall.set_bandwidth c.channel c.bandwidth]⟩)) ∧
    (f.1 = 0 → r.1 = 0 → b.1 = 0 → configure_channel d w c =
      (g.1, ⟨g.2, w.trace ++ [DevCall.set_frequency c.channel c.frequency,
        DevCall.set_sample_rate c.channel c.samplerate,
        DevCall.set_bandwidth c.channel c.bandwidth,
        DevCall.set_gain c.channel c.gain]⟩)) ∧
    ((configure_channel d w c).1 = 0 ↔ f.1 = 0 ∧ r.1 = 0 ∧ b.1 = 0 ∧ g.1 = 0) := by
  dsimp only
  refine ⟨?_, ?_, ?_, ?_, ?_⟩
  · intro h1
    simp [configure_channel, invoke, h1]
  · intro h1 h2
    simp [configure_channel, invoke, h1, h2]
  · intro h1 h2 h3
    simp [configure_channel, invoke, h1, h2, h3]
  · intro h1 h2 h3
    simp [configure_channel, invoke, h1, h2, h3]
  · by_cases h1 : (d.call w.dev (DevCall.set_frequency c.channel c.frequency)).1 = 0
    · by_cases h2 : (d.call (d.call w.dev (DevCall.set_frequency c.channel c.frequency)).2
          (DevCall.set_sample_rate c.channel c.samplerate)).1 = 0
      · by_cases h3 : (d.call (d.call (d.call w.dev
            (DevCall.set_frequency c.channel c.frequency)).2
            (DevCall.set_sample_rate c.channel c.samplerate)).2
            (DevCall.set_bandwidth c.channel c.bandwidth)).1 = 0
        · simp [configure_channel, invoke, h1, h2, h3]
        · simp [configure_channel, invoke, h1, h2, h3]
      · simp [configure_channel, invoke, h1, h2]
    · simp [configure_channel, invoke, h1]

theorem main_open_trace (st : σ) (argv : List (List Nat)) :
    (main_open d K ⟨st, []⟩ argv).2.trace =
      [DevCall.open_with_devinfo (requested_serial K argv)] := rfl

theorem main_synced_trace (w : World σ) (argv : List (List Nat)) :
    (main_synced d K w argv).2.trace =
      (main_configured d K w argv).2.trace ++ [main_sync_config K] := rfl

theorem main_enabled_trace (w : World σ) (argv : List (List Nat)) :
    (main_enabled d K w argv).2.trace =
      (main_configured d K w argv).2.trace ++
        [main_sync_config K, DevCall.enable_module K.BLADERF_RX true] := by
  simp [main_enabled, main_synced, invoke]

/-- Up to the enabling of the front end, `main` issues no receive request and
disables nothing. -/
theorem setup_calls_clean (st : σ) (argv : List (List Nat)) (x : DevCall)
    (hx : x ∈ (main_enabled d K ⟨st, []⟩ argv).2.trace) :
    is_sync_rx x = false ∧ is_disable x = false := by
  obtain ⟨m, hm⟩ := configure_channel_trace d (main_open d K ⟨st, []⟩ argv).2 (main_config K)
  rw [main_enabled_trace] at hx
  simp only [main_configured, hm, main_open_trace, List.mem_append, List.mem_cons,
    List.mem_singleton, List.not_mem_nil, or_false] at hx
  rcases hx with (rfl | h) | rfl | rfl
  · exact ⟨rfl, rfl⟩
  · exact mem_config_calls h
  · exact ⟨rfl, rfl⟩
  · exact ⟨rfl, rfl⟩

theorem configured_sub_enabled (w : World σ) (argv : List (List Nat)) (x : DevCall)
    (hx : x ∈ (main_configured d K w argv).2.trace) :
    x ∈ (main_enabled d K w argv).2.trace := by
  rw [main_enabled_trace]; exact List.mem_append_left _ hx

theorem synced_sub_enabled (w : World σ) (argv : List (List Nat)) (x : DevCall)
    (hx : x ∈ (main_synced d K w argv).2.trace) :
    x ∈ (main_enabled d K w argv).2.trace := by
  rw [main_synced_trace] at hx
  rw [main_enabled_trace]
  simp only [List.mem_append, List.mem_cons, List.mem_singleton, List.not_mem_nil,
    or_false] at hx ⊢
  rcases hx with h | h
  · exact Or.inl h
  · exact Or.inr (Or.inl h)

/-- C8: when the device was opened and channel configuration, sync
configuration or enabling the RX front end returns a non-zero status, `main`
issues no receive request at all, and after the failing step it calls nothing
but `bladerf_close`: its calls are the opening, an initial part of the four
setters, then, each only after the previous step succeeded, the sync
configuration and the enabling, and the closing. -/
theorem c8_setup_failure_aborts {σ : Type} (d : Device σ) (K : LibBladeRF) (st : σ)
    (argv : List (List Nat)) (malloc_ok : Bool)
    (hopen : (main_open d K ⟨st, []⟩ argv).1 = 0)
    (hfail : (main_configured d K ⟨st, []⟩ argv).1 ≠ 0 ∨
      (main_synced d K ⟨st, []⟩ argv).1 ≠ 0 ∨ (main_enabled d K ⟨st, []⟩ argv).1 ≠ 0) :
    (∀ x ∈ (main d K ⟨st, []⟩ argv malloc_ok).2.trace, is_sync_rx x = false) ∧
    (∃ m, (main_configured d K ⟨st, []⟩ argv).2.trace =
      [DevCall.open_with_devinfo (requested_serial K argv)] ++
        (config_calls (main_config K)).take m) ∧
    ((main_configured d K ⟨st, []⟩ argv).1 ≠ 0 →
      (main d K ⟨st, []⟩ argv malloc_ok).2.trace =
        (main_configured d K ⟨st, []⟩ argv).2.trace ++ [DevCall.close]) ∧
    ((main_configured d K ⟨st, []⟩ argv).1 = 0 → (main_synced d K ⟨st, []⟩ argv).1 ≠ 0 →
      (main d K ⟨st, []⟩ argv malloc_ok).2.trace =
        (main_configured d K ⟨st, []⟩ argv).2.trace ++
          [main_sync_config K, DevCall.close]) ∧
    ((main_configured d K ⟨st, []⟩ argv).1 = 0 → (main_synced d K ⟨st, []⟩ argv).1 = 0 →
      (main_enabled d K ⟨st, []⟩ argv).1 ≠ 0 →
      (main d K ⟨st, []⟩ argv malloc_ok).2.trace =
        (main_configured d K ⟨st, []⟩ argv).2.trace ++
          [main_sync_config K, DevCall.enable_module K.BLADERF_RX true, DevCall.close]) := by
  obtain ⟨c1, c2, c3, -, -⟩ := main_trace_cases d K ⟨st, []⟩ argv malloc_ok hopen
  have t1 : (main_configured d K ⟨st, []⟩ argv).1 ≠ 0 →
      (main d K ⟨st, []⟩ argv malloc_ok).2.trace =
        (main_configured d K ⟨st, []⟩ argv).2.trace ++ [DevCall.close] := by
    intro h; rw [c1 h]; rfl
  have t2 : (main_configured d K ⟨st, []⟩ argv).1 = 0 →
      (main_synced d K ⟨st, []⟩ argv).1 ≠ 0 →
      (main d K ⟨st, []⟩ argv malloc_ok).2.trace =
        (main_configured d K ⟨st, []⟩ argv).2.trace ++
          [main_sync_config K, DevCall.close] := by
    intro h1 h2; rw [c2 h1 h2, main_out_trace, main_synced_trace]
    simp
  have t3 : (main_configured d K ⟨st, []⟩ argv).1 = 0 →
      (main_synced d K ⟨st, []⟩ argv).1 = 0 → (main_enabled d K ⟨st, []⟩ argv).1 ≠ 0 →
      (main d K ⟨st, []⟩ argv malloc_ok).2.trace =
        (main_configured d K ⟨st, []⟩ argv).2.trace ++
          [main_sync_config K, DevCall.enable_module K.BLADERF_RX true, DevCall.close] := by
    intro h1 h2 h3; rw [c3 h1 h2 h3, main_out_trace, main_enabled_trace]
    simp
  refine ⟨?_, ?_, t1, t2, t3⟩
  · intro x hx
    have hcfg : ∀ y ∈ (main_configured d K ⟨st, []⟩ argv).2.trace, is_sync_rx y = false :=
      fun y hy => (setup_calls_clean d K st argv y
        (configured_sub_enabled d K _ argv y hy)).1
    by_cases h1 : (main_configured d K ⟨st, []⟩ argv).1 = 0
    · by_cases h2 : (main_synced d K ⟨st, []⟩ argv).1 = 0
      · have h3 : (main_enabled d K ⟨st, []⟩ argv).1 ≠ 0 := by
          rcases hfail with h | h | h
          · exact absurd h1 h
          · exact absurd h2 h
          · exact h
        rw [t3 h1 h2 h3] at hx
        simp only [List.mem_append, List.mem_cons, List.mem_singleton, List.not_mem_nil,
          or_false] at hx
        rcases hx with h | rfl | rfl | rfl
        · exact hcfg x h
        · rfl
        · rfl
        · rfl
      · rw [t2 h1 h2] at hx
        simp only [List.mem_append, List.mem_cons, List.mem_singleton, List.not_mem_nil,
          or_false] at hx
        rcases hx with h | rfl | rfl
        · exact hcfg x h
        · rfl
        · rfl
    · rw [t1 h1] at hx
      simp only [List.mem_append, List.mem_singleton] at hx
      rcases hx with h | rfl
      · exact hcfg x h
      · rfl
  · obtain ⟨m, hm⟩ := configure_channel_trace d (main_open d K ⟨st, []⟩ argv).2 (main_config K)
    exact ⟨m, by rw [main_configured, hm, main_open_trace]⟩

/-- With the device opened and the buffer allocated, the calls of `main` are
those of some world, none of them a disabling, followed by `bladerf_close`. -/
theorem main_closes (st : σ) (argv : List (List Nat))
    (hopen : (main_open d K ⟨st, []⟩ argv).1 = 0) :
    ∃ W : World σ, (main d K ⟨st, []⟩ argv true).2.trace = W.trace ++ [DevCall.close] ∧
      ∀ x ∈ W.trace, is_disable x = false := by
  obtain ⟨c1, c2, c3, c4, -⟩ := main_trace_cases d K ⟨st, []⟩ argv true hopen
  have hen := setup_calls_clean d K st argv
  by_cases h1 : (main_configured d K ⟨st, []⟩ argv).1 = 0
  · by_cases h2 : (main_synced d K ⟨st, []⟩ argv).1 = 0
    · by_cases h3 : (main_enabled d K ⟨st, []⟩ argv).1 = 0
      · refine ⟨(main_acquired d K ⟨st, []⟩ argv).2.w, by rw [c4 h1 h2 h3 rfl]; rfl, ?_⟩
        intro x hx
        have htr := (run_facts d K 8192 1000000000 0
          (main_enabled d K ⟨st, []⟩ argv).2 1000000000).trace
        rw [rx_init_w] at htr
        simp only [main_acquired, sync_rx_meta_now_example] at hx
        rw [htr, List.mem_append] at hx
        rcases hx with h | h
        · exact (hen x h).2
        · rw [List.eq_of_mem_replicate h]; rfl
      · exact ⟨(main_enabled d K ⟨st, []⟩ argv).2, by rw [c3 h1 h2 h3]; rfl,
          fun x hx => (hen x hx).2⟩
    · exact ⟨(main_synced d K ⟨st, []⟩ argv).2, by rw [c2 h1 h2]; rfl,
        fun x hx => (hen x (synced_sub_enabled d K _ argv x hx)).2⟩
  · exact ⟨(main_configured d K ⟨st, []⟩ argv).2, by rw [c1 h1]; rfl,
      fun x hx => (hen x (configured_sub_enabled d K _ argv x hx)).2⟩

/-- C3, as amended: `main` returns 1 when the device cannot be opened, whatever
the error code of the opening; and it returns 0 when the setup and the
allocation succeed and the acquisition loop completes normally, reaching its
target with status 0. -/
theorem c3_exit_status {σ : Type} (d : Device σ) (K : LibBladeRF) (w : World σ)
    (argv : List (List Nat)) (malloc_ok : Bool) :
    ((main_open d K w argv).1 ≠ 0 → (main d K w argv malloc_ok).1 = some 1) ∧
    ((main_open d K w argv).1 = 0 → (main_configured d K w argv).1 = 0 →
      (main_synced d K w argv).1 = 0 → (main_enabled d K w argv).1 = 0 →
      malloc_ok = true → (main_acquired d K w argv).1 = LoopExit.cond →
      (main_acquired d K w argv).2.status = 0 →
      (main d K w argv malloc_ok).1 = some 0) := by
  refine ⟨?_, ?_⟩
  · intro h; rw [main_eq]; simp [h]
  · intro h0 h1 h2 h3 h4 _ _
    rw [(main_trace_cases d K w argv malloc_ok h0).2.2.2.1 h1 h2 h3 h4]
    rfl

/-- C4, as amended: when the device was opened and the buffer allocation does
not fail, whichever of channel configuration, sync configuration, front-end
enable or a receive request fails, or none, the last device operation of `main`
is `bladerf_close`; no operation of `main` disables the RX front end. -/
theorem c4_teardown_closes {σ : Type} (d : Device σ) (K : LibBladeRF) (st : σ)
    (argv : List (List Nat)) (hopen : (main_open d K ⟨st, []⟩ argv).1 = 0) :
    (main d K ⟨st, []⟩ argv true).2.trace.getLast? = some DevCall.close ∧
    (∀ x ∈ (main d K ⟨st, []⟩ argv true).2.trace, is_disable x = false) := by
  obtain ⟨W, hW, hclean⟩ := main_closes d K st argv hopen
  rw [hW]
  refine ⟨by simp, ?_⟩
  intro x hx
  rw [List.mem_append, List.mem_singleton] at hx
  rcases hx with h | rfl
  · exact hclean x h
  · rfl

end Main

/-! ## Scripted devices -/

theorem rx_answer_scripted (calls : DevCall → Int) (rx : Nat → Int × bladerf_metadata)
    (len t : Nat) : ∀ (k st : Nat) (m : bladerf_metadata),
    rx_answer (scripted calls rx) len t k st m = rx (st + k) := by
  intro k
  induction k with
  | zero => intro st m; rfl
  | succ k ih =>
    intro st m
    rw [rx_answer_succ, ih]
    have e : st + 1 + k = st + (k + 1) := by omega
    simp only [scripted, e]

theorem overruns_none {σ : Type} (d : Device σ) (K : LibBladeRF) (len t n : Nat) (st : σ)
    (m : bladerf_metadata)
    (h : ∀ k, k < n → is_overrun K (rx_answer d len t k st m) = false) :
    overruns d K len t n st m = 0 := by
  induction n with
  | zero => rfl
  | succ n ih =>
    rw [overruns_succ, ih (fun k hk => h k (by omega)), h n (by omega)]
    rfl

/-- A run in which no result is an error or an overrun reaches its target with
status 0. -/
theorem run_all_success {σ : Type} (d : Device σ) (K : LibBladeRF) (w : World σ)
    (len n t : Nat)
    (h0 : ∀ k, k < n → (rx_answer d len t k w.dev (meta_init K)).1 = 0)
    (hno : ∀ k, k < n → is_overrun K (rx_answer d len t k w.dev (meta_init K)) = false) :
    (sync_rx_meta_now_example d K w len n t).1 = LoopExit.cond ∧
    (sync_rx_meta_now_example d K w len n t).2.status = 0 := by
  have hf := run_facts d K len n t w n
  have htot := rx_for_total d K len n t w
  simp only [sync_rx_meta_now_example] at htot ⊢
  have hle := hf.le_target
  simp only [rx_init_i, Nat.sub_zero] at hle
  have hnf := hf.nfailed
  rw [rx_init_nfailed, rx_init_w, rx_init_meta,
    overruns_none d K len t _ _ _ (fun k hk => hno k (by omega))] at hnf
  have hnb : (rx_for d K len n t n (rx_init K w)).1 ≠ LoopExit.brk := by
    intro hb
    have := hf.brk_iff.mp hb
    omega
  refine ⟨by cases h : (rx_for d K len n t n (rx_init K w)).1 <;> simp_all, ?_⟩
  rcases Nat.eq_zero_or_pos
    (requests_issued w (rx_for d K len n t n (rx_init K w)).2) with hz | hp
  · exact hf.status_none hz
  · rw [hf.status_last hp]
    exact h0 _ (by omega)

/-- On the device on which everything succeeds, the acquisition of `main`
reaches its target with status 0. -/
theorem dev_ok_acquired (K : LibBladeRF) (w : World Nat) (argv : List (List Nat)) :
    (main_acquired dev_ok K w argv).1 = LoopExit.cond ∧
    (main_acquired dev_ok K w argv).2.status = 0 := by
  apply run_all_success
  · intro k _; rw [dev_ok, rx_answer_scripted]; rfl
  · intro k _; rw [dev_ok, rx_answer_scripted]; simp [is_overrun, answer_ok]

/-! ## Concrete runs -/

/-- C1 on `dev_sparse_overruns` with target 100: the fifth overrun is the
result of index 8, after which the requests of index 9 and 10 are issued; the
sixth overrun, at index 10, is the last request. -/
theorem c1_overrun_threshold_exit_witness :
    overruns dev_sparse_overruns libbladeRF_h 8192 0 9 world0.dev (meta_init libbladeRF_h) = 5 ∧
    overruns dev_sparse_overruns libbladeRF_h 8192 0 11 world0.dev (meta_init libbladeRF_h) = 6 ∧
    requests_issued world0
      (sync_rx_meta_now_example dev_sparse_overruns libbladeRF_h world0 8192 100 0).2 = 11 ∧
    (sync_rx_meta_now_example dev_sparse_overruns libbladeRF_h world0 8192 100 0).1 =
      LoopExit.brk :=
  ⟨by decide, by decide,
   (c1_overrun_threshold_exit dev_sparse_overruns libbladeRF_h world0 8192 100 0).2.2.2.2
     10 (by decide) (by decide),
   (c1_overrun_threshold_exit dev_sparse_overruns libbladeRF_h world0 8192 100 0).2.2.1.mpr
     (by decide)⟩

/-- C2 on `dev_error_at_2` with target 10: the request of index 2 fails with
-6; three requests are issued, -6 is returned, the counter stays 0. -/
theorem c2_transport_error_halts_witness :
    2 < requests_issued world0
      (sync_rx_meta_now_example dev_error_at_2 libbladeRF_h world0 8192 10 0).2 ∧
    (rx_answer dev_error_at_2 8192 0 2 world0.dev (meta_init libbladeRF_h)).1 ≠ 0 ∧
    requests_issued world0
      (sync_rx_meta_now_example dev_error_at_2 libbladeRF_h world0 8192 10 0).2 = 3 ∧
    (sync_rx_meta_now_example dev_error_at_2 libbladeRF_h world0 8192 10 0).2.status = -6 ∧
    (sync_rx_meta_now_example dev_error_at_2 libbladeRF_h world0 8192 10 0).2.nfailed = 0 :=
  ⟨by decide, by decide,
   (c2_transport_error_halts dev_error_at_2 libbladeRF_h world0 8192 10 0 2
     (by decide) (by decide)).1,
   (c2_transport_error_halts dev_error_at_2 libbladeRF_h world0 8192 10 0 2
     (by decide) (by decide)).2.2.2.1.trans (by decide),
   (c2_transport_error_halts dev_error_at_2 libbladeRF_h world0 8192 10 0 2
     (by decide) (by decide)).2.2.2.2.2.2.trans (by decide)⟩

/-- C6 on scenario B (target 10, one overrun at the third request): 10
requests, status 0, counter 1; and on scenario A (target 5, all succeed): 5
requests, status 0, counter 0. -/
theorem c6_normal_completion_witness :
    (∀ k, k < 10 →
      (rx_answer dev_scenario_b 8192 0 k world0.dev (meta_init libbladeRF_h)).1 = 0) ∧
    overruns dev_scenario_b libbladeRF_h 8192 0 10 world0.dev (meta_init libbladeRF_h) ≤ 5 ∧
    requests_issued world0
      (sync_rx_meta_now_example dev_scenario_b libbladeRF_h world0 8192 10 0).2 = 10 ∧
    (sync_rx_meta_now_example dev_scenario_b libbladeRF_h world0 8192 10 0).2.status = 0 ∧
    (sync_rx_meta_now_example dev_scenario_b libbladeRF_h world0 8192 10 0).2.nfailed = 1 ∧
    requests_issued world0
      (sync_rx_meta_now_example dev_ok libbladeRF_h world0 8192 5 0).2 = 5 ∧
    (sync_rx_meta_now_example dev_ok libbladeRF_h world0 8192 5 0).2.status = 0 ∧
    (sync_rx_meta_now_example dev_ok libbladeRF_h world0 8192 5 0).2.nfailed = 0 :=
  ⟨by decide, by decide,
   (c6_normal_completion dev_scenario_b libbladeRF_h world0 8192 10 0
     (by decide) (by decide)).1,
   (c6_normal_completion dev_scenario_b libbladeRF_h world0 8192 10 0
     (by decide) (by decide)).2.2.2.1,
   (c6_normal_completion dev_scenario_b libbladeRF_h world0 8192 10 0
     (by decide) (by decide)).2.2.2.2.trans (by decide),
   (c6_normal_completion dev_ok libbladeRF_h world0 8192 5 0 (by decide) (by decide)).1,
   (c6_normal_completion dev_ok libbladeRF_h world0 8192 5 0 (by decide) (by decide)).2.2.2.1,
   (c6_normal_completion dev_ok libbladeRF_h world0 8192 5 0
     (by decide) (by decide)).2.2.2.2.trans (by decide)⟩

/-- C7 as stated fails: with target 7 and overruns only, the function stops
after 6 requests through the `break`, and returns 0, the very status it
returns on the device without overruns, where it completes its 7 requests. -/
theorem c7_counterexample :
    (∀ k, k < 6 → is_overrun libbladeRF_h
      (rx_answer dev_overruns 8192 0 k world0.dev (meta_init libbladeRF_h)) = true) ∧
    (sync_rx_meta_now_example dev_overruns libbladeRF_h world0 8192 7 0).1 = LoopExit.brk ∧
    requests_issued world0
      (sync_rx_meta_now_example dev_overruns libbladeRF_h world0 8192 7 0).2 = 6 ∧
    (sync_rx_meta_now_example dev_overruns libbladeRF_h world0 8192 7 0).2.status = 0 ∧
    (sync_rx_meta_now_example dev_ok libbladeRF_h world0 8192 7 0).1 = LoopExit.cond ∧
    requests_issued world0
      (sync_rx_meta_now_example dev_ok libbladeRF_h world0 8192 7 0).2 = 7 ∧
    (sync_rx_meta_now_example dev_ok libbladeRF_h world0 8192 7 0).2.status =
      (sync_rx_meta_now_example dev_overruns libbladeRF_h world0 8192 7 0).2.status := by
  decide

/-- C7 as amended, on `dev_overruns` with target 10. -/
theorem c7_six_overruns_stop_witness :
    6 < 10 ∧
    (∀ k, k < 6 → is_overrun libbladeRF_h
      (rx_answer dev_overruns 8192 0 k world0.dev (meta_init libbladeRF_h)) = true) ∧
    requests_issued world0
      (sync_rx_meta_now_example dev_overruns libbladeRF_h world0 8192 10 0).2 = 6 ∧
    (sync_rx_meta_now_example dev_overruns libbladeRF_h world0 8192 10 0).1 = LoopExit.brk ∧
    (sync_rx_meta_now_example dev_overruns libbladeRF_h world0 8192 10 0).2.nfailed = 6 ∧
    (sync_rx_meta_now_example dev_overruns libbladeRF_h world0 8192 10 0).2.status = 0 :=
  ⟨by decide, by decide,
   (c7_six_overruns_stop dev_overruns libbladeRF_h world0 8192 10 0
     (by decide) (by decide)).1,
   (c7_six_overruns_stop dev_overruns libbladeRF_h world0 8192 10 0
     (by decide) (by decide)).2.2.1,
   (c7_six_overruns_stop dev_overruns libbladeRF_h world0 8192 10 0
     (by decide) (by decide)).2.2.2.1,
   (c7_six_overruns_stop dev_overruns libbladeRF_h world0 8192 10 0
     (by decide) (by decide)).2.2.2.2⟩

/-- C9 on `dev_error_at_2` with target 10, in the loop state reached after the
two successful iterations: the third answer has status -6 and the overrun flag
set; the loop is left through its condition with status -6 and the counter
still 0. -/
theorem c9_error_with_overrun_flag_witness :
    ((rx_for dev_error_at_2 libbladeRF_h 8192 10 0 2 (rx_init libbladeRF_h world0)).2.i < 10 ∧
      (rx_for dev_error_at_2 libbladeRF_h 8192 10 0 2
        (rx_init libbladeRF_h world0)).2.status = 0) ∧
    (rx_for dev_error_at_2 libbladeRF_h 8192 10 0 8
      (rx_for dev_error_at_2 libbladeRF_h 8192 10 0 2
        (rx_init libbladeRF_h world0)).2).1 = LoopExit.cond ∧
    (rx_for dev_error_at_2 libbladeRF_h 8192 10 0 8
      (rx_for dev_error_at_2 libbladeRF_h 8192 10 0 2
        (rx_init libbladeRF_h world0)).2).2.status = -6 ∧
    (rx_for dev_error_at_2 libbladeRF_h 8192 10 0 8
      (rx_for dev_error_at_2 libbladeRF_h 8192 10 0 2
        (rx_init libbladeRF_h world0)).2).2.nfailed = 0 :=
  ⟨by decide,
   (c9_error_with_overrun_flag dev_error_at_2 libbladeRF_h 8192 10 0 7
     (rx_for dev_error_at_2 libbladeRF_h 8192 10 0 2 (rx_init libbladeRF_h world0)).2
     (by decide) (by decide) (by decide)).2.1,
   (c9_error_with_overrun_flag dev_error_at_2 libbladeRF_h 8192 10 0 7
     (rx_for dev_error_at_2 libbladeRF_h 8192 10 0 2 (rx_init libbladeRF_h world0)).2
     (by decide) (by decide) (by decide)).2.2.2.1.trans (by decide),
   (c9_error_with_overrun_flag dev_error_at_2 libbladeRF_h 8192 10 0 7
     (rx_for dev_error_at_2 libbladeRF_h 8192 10 0 2 (rx_init libbladeRF_h world0)).2
     (by decide) (by decide) (by decide)).2.2.1.trans (by decide)⟩

/-- C10 on `dev_sparse_overruns` with target 100, between the states after 10
and after 11 iterations. -/
theorem c10_loop_state_monotone_witness :
    (rx_for dev_sparse_overruns libbladeRF_h 8192 100 0 10
      (rx_init libbladeRF_h world0)).2.nfailed = 5 ∧
    (rx_for dev_sparse_overruns libbladeRF_h 8192 100 0 11
      (rx_init libbladeRF_h world0)).2.nfailed ≤ 5 + 1 ∧
    requests_issued world0 (rx_for dev_sparse_overruns libbladeRF_h 8192 100 0 11
      (rx_init libbladeRF_h world0)).2 = 10 + 1 :=
  ⟨by decide,
   ((c10_loop_state_monotone dev_sparse_overruns libbladeRF_h world0 8192 100 0 10).2.1
     (by decide)).2.2.2,
   ((c10_loop_state_monotone dev_sparse_overruns libbladeRF_h world0 8192 100 0 10).2.1
     (by decide)).2.1.trans (by decide)⟩

/-- C5 on `dev_rate_fails`: the sample rate is rejected with -2 after the
frequency was set; nothing else is called and -2 is returned. -/
theorem c5_configure_channel_fail_fast_witness :
    configure_channel dev_rate_fails world0 (main_config libbladeRF_h) =
      (-2, ⟨0, [DevCall.set_frequency 0 910000000, DevCall.set_sample_rate 0 61440000]⟩) :=
  (c5_configure_channel_fail_fast dev_rate_fails world0 (main_config libbladeRF_h)).2.1
    (by decide) (by decide)

/-- C3 as stated fails on three runs.  When the device cannot be opened, with
error code -7, `main` returns 1.  When the sync configuration fails with -3,
`main` jumps to `out` and, the device closed, calls `free` on the
uninitialised `buffer`: no return value is defined.  When the first receive
request fails with -5, after which the function returns -5, `main` returns
0. -/
theorem c3_counterexample :
    (main_open dev_open_fails libbladeRF_h world0 []).1 = -7 ∧
    (main dev_open_fails libbladeRF_h world0 [] true).1 = some 1 ∧
    (main_open dev_sync_config_fails libbladeRF_h world0 []).1 = 0 ∧
    (main_configured dev_sync_config_fails libbladeRF_h world0 []).1 = 0 ∧
    (main_synced dev_sync_config_fails libbladeRF_h world0 []).1 = -3 ∧
    (main dev_sync_config_fails libbladeRF_h world0 [] true).1 = none ∧
    (rx_answer dev_rx_fails 8192 0 0
      (main_enabled dev_rx_fails libbladeRF_h world0 []).2.dev (meta_init libbladeRF_h)).1 = -5 ∧
    (main_acquired dev_rx_fails libbladeRF_h world0 []).2.status = -5 ∧
    (main dev_rx_fails libbladeRF_h world0 [] true).1 = some 0 := by
  decide

/-- C3 as amended, on the device that cannot be opened, where `main` returns
1, and on the device on which everything succeeds, where the acquisition
reaches its target and `main` returns 0. -/
theorem c3_exit_status_witness :
    (main_open dev_open_fails libbladeRF_h world0 []).1 ≠ 0 ∧
    (main dev_open_fails libbladeRF_h world0 [] true).1 = some 1 ∧
    (main_acquired dev_ok libbladeRF_h world0 []).1 = LoopExit.cond ∧
    (main_acquired dev_ok libbladeRF_h world0 []).2.status = 0 ∧
    (main dev_ok libbladeRF_h world0 [] true).1 = some 0 :=
  ⟨by decide,
   (c3_exit_status dev_open_fails libbladeRF_h world0 [] true).1 (by decide),
   (dev_ok_acquired libbladeRF_h world0 []).1,
   (dev_ok_acquired libbladeRF_h world0 []).2,
   (c3_exit_status dev_ok libbladeRF_h world0 [] true).2
     (by decide) (by decide) (by decide) (by decide) rfl
     (dev_ok_acquired libbladeRF_h world0 []).1 (dev_ok_acquired libbladeRF_h world0 []).2⟩

/-- C4 as stated fails on two runs of an opened device.  When the first receive
request fails, the calls of `main` are the setup, that request and
`bladerf_close`, none of them disabling the front end.  When the buffer
allocation fails, the last call is the enabling of the front end. -/
theorem c4_counterexample :
    (main_open dev_rx_fails libbladeRF_h world0 []).1 = 0 ∧
    (main dev_rx_fails libbladeRF_h world0 [] true).2.trace =
      [DevCall.open_with_devinfo (requested_serial libbladeRF_h []), DevCall.set_frequency 0 910000000,
       DevCall.set_sample_rate 0 61440000, DevCall.set_bandwidth 0 50000000,
       DevCall.set_gain 0 39, DevCall.sync_config 0 1 64 16384 16 0,
       DevCall.enable_module 0 true, DevCall.sync_rx 8192 0, DevCall.close] ∧
    (main dev_rx_fails libbladeRF_h world0 [] true).2.trace.any is_disable = false ∧
    (main dev_ok libbladeRF_h world0 [] false).2.trace.getLast? =
      some (DevCall.enable_module 0 true) := by
  decide

/-- C4 as amended, on the device whose receive requests fail. -/
theorem c4_teardown_closes_witness :
    (main_open dev_rx_fails libbladeRF_h ⟨world0.dev, []⟩ []).1 = 0 ∧
    (main dev_rx_fails libbladeRF_h ⟨world0.dev, []⟩ [] true).2.trace.getLast? =
      some DevCall.close :=
  ⟨by decide, (c4_teardown_closes dev_rx_fails libbladeRF_h world0.dev [] (by decide)).1⟩

/-- C8 on the device whose sync configuration fails: the calls of `main` are
the opening, the four setters, the sync configuration and the closing. -/
theorem c8_setup_failure_aborts_witness :
    (main_open dev_sync_config_fails libbladeRF_h ⟨world0.dev, []⟩ []).1 = 0 ∧
    (main_synced dev_sync_config_fails libbladeRF_h ⟨world0.dev, []⟩ []).1 ≠ 0 ∧
    (main dev_sync_config_fails libbladeRF_h ⟨world0.dev, []⟩ [] true).2.trace =
      [DevCall.open_with_devinfo (requested_serial libbladeRF_h []), DevCall.set_frequency 0 910000000,
       DevCall.set_sample_rate 0 61440000, DevCall.set_bandwidth 0 50000000,
       DevCall.set_gain 0 39, DevCall.sync_config 0 1 64 16384 16 0, DevCall.close] ∧
    (∀ x ∈ (main dev_sync_config_fails libbladeRF_h ⟨world0.dev, []⟩ [] true).2.trace,
      is_sync_rx x = false) :=
  ⟨by decide, by decide,
   ((c8_setup_failure_aborts dev_sync_config_fails libbladeRF_h world0.dev [] true
     (by decide) (Or.inr (Or.inl (by decide)))).2.2.2.1 (by decide) (by decide)).trans
     (by decide),
   (c8_setup_failure_aborts dev_sync_config_fails libbladeRF_h world0.dev [] true
     (by decide) (Or.inr (Or.inl (by decide)))).1⟩

end Metarx
